import Mathlib

/-
Verification of the poll-and-acknowledge cycle of the AWS SQS trigger node
(three variants: the continuous-polling trigger with deferred acknowledgment,
the host-scheduled poll variant, and the interval trigger with batch delete).
The TypeScript sources are shallowly embedded: network sends are modelled by
an outcome oracle, the in-flight tracking Map by an association list, and
JSON.parse by an executable fuel-based parser over the JSON grammar.
-/

/-- JSON values as produced by JSON.parse; numeric literals keep their lexeme. -/
inductive Json where
  | null : Json
  | bool (b : Bool) : Json
  | num (lexeme : String) : Json
  | str (s : String) : Json
  | arr (elems : List Json) : Json
  | obj (fields : List (String × Json)) : Json
  deriving Repr

/-- JSON whitespace characters. -/
def isJsonWs (c : Char) : Bool :=
  c = ' ' || c = '\t' || c = '\n' || c = '\r'

/-- Drop leading JSON whitespace. -/
def skipWs : List Char → List Char
  | [] => []
  | c :: cs => if isJsonWs c then skipWs cs else c :: cs

/-- Value of a hexadecimal digit. -/
def hexVal (c : Char) : Option Nat :=
  if '0' ≤ c ∧ c ≤ '9' then some (c.toNat - '0'.toNat)
  else if 'a' ≤ c ∧ c ≤ 'f' then some (c.toNat - 'a'.toNat + 10)
  else if 'A' ≤ c ∧ c ≤ 'F' then some (c.toNat - 'A'.toNat + 10)
  else none

/-- Parse exactly four hexadecimal digits. -/
def parseHex4 : List Char → Option (Nat × List Char)
  | a :: b :: c :: d :: rest => do
    let x ← hexVal a
    let y ← hexVal b
    let z ← hexVal c
    let w ← hexVal d
    some ((((x * 16 + y) * 16 + z) * 16 + w), rest)
  | _ => none

/-- Parse the body of a JSON string after the opening quote, handling escapes;
returns the decoded characters and the remainder after the closing quote. -/
def parseStringBody : Nat → List Char → Option (List Char × List Char)
  | 0, _ => none
  | _ + 1, [] => none
  | fuel + 1, c :: cs =>
    if c = '"' then some ([], cs)
    else if c = '\\' then
      match cs with
      | [] => none
      | e :: cs2 =>
        let cont := fun (ch : Char) (rest : List Char) =>
          match parseStringBody fuel rest with
          | some (out, r) => some (ch :: out, r)
          | none => none
        if e = '"' then cont '"' cs2
        else if e = '\\' then cont '\\' cs2
        else if e = '/' then cont '/' cs2
        else if e = 'b' then cont '\x08' cs2
        else if e = 'f' then cont '\x0c' cs2
        else if e = 'n' then cont '\n' cs2
        else if e = 'r' then cont '\x0d' cs2
        else if e = 't' then cont '\t' cs2
        else if e = 'u' then
          match parseHex4 cs2 with
          | some (n, cs3) => cont (Char.ofNat n) cs3
          | none => none
        else none
    else if c.toNat < 32 then none
    else
      match parseStringBody fuel cs with
      | some (out, r) => some (c :: out, r)
      | none => none

/-- Take a maximal run of decimal digits. -/
def takeDigits : List Char → List Char × List Char
  | [] => ([], [])
  | c :: cs =>
    if c.isDigit then
      let (d, r) := takeDigits cs
      (c :: d, r)
    else ([], c :: cs)

/-- Parse an optional JSON fraction part. -/
def parseFrac : List Char → Option (List Char × List Char)
  | '.' :: rest =>
    let (ds, r) := takeDigits rest
    if ds = [] then none else some ('.' :: ds, r)
  | cs => some ([], cs)

/-- Parse an optional JSON exponent part. -/
def parseExp : List Char → Option (List Char × List Char)
  | [] => some ([], [])
  | c :: rest =>
    if c = 'e' ∨ c = 'E' then
      let (sgn, rest2) :=
        match rest with
        | s :: r2 => if s = '+' ∨ s = '-' then ([s], r2) else (([] : List Char), s :: r2)
        | [] => ([], [])
      let (ds, r) := takeDigits rest2
      if ds = [] then none else some (c :: (sgn ++ ds), r)
    else some ([], c :: rest)

/-- Parse a JSON number, returning its lexeme and the remainder. -/
def parseNumber (cs : List Char) : Option (List Char × List Char) :=
  let (sign, cs1) :=
    match cs with
    | '-' :: rest => ((['-'] : List Char), rest)
    | _ => ([], cs)
  let (ip, cs2) := takeDigits cs1
  if ip = [] then none
  else if ip.length > 1 ∧ ip.headD ' ' = '0' then none
  else
    match parseFrac cs2 with
    | none => none
    | some (fp, cs3) =>
      match parseExp cs3 with
      | none => none
      | some (ep, cs4) => some (sign ++ ip ++ fp ++ ep, cs4)

mutual

/-- Parse one JSON value (fuel-bounded recursive-descent). -/
def parseValue : Nat → List Char → Option (Json × List Char)
  | 0, _ => none
  | fuel + 1, cs =>
    match skipWs cs with
    | [] => none
    | 'n' :: rest =>
      match rest with
      | 'u' :: 'l' :: 'l' :: r => some (Json.null, r)
      | _ => none
    | 't' :: rest =>
      match rest with
      | 'r' :: 'u' :: 'e' :: r => some (Json.bool true, r)
      | _ => none
    | 'f' :: rest =>
      match rest with
      | 'a' :: 'l' :: 's' :: 'e' :: r => some (Json.bool false, r)
      | _ => none
    | '"' :: rest =>
      match parseStringBody (rest.length + 1) rest with
      | some (out, r) => some (Json.str (String.mk out), r)
      | none => none
    | '[' :: rest =>
      match skipWs rest with
      | ']' :: r => some (Json.arr [], r)
      | cs2 =>
        match parseElems fuel cs2 with
        | some (vs, r) => some (Json.arr vs, r)
        | none => none
    | '\x7b' :: rest =>
      match skipWs rest with
      | '\x7d' :: r => some (Json.obj [], r)
      | cs2 =>
        match parseFields fuel cs2 with
        | some (fs, r) => some (Json.obj fs, r)
        | none => none
    | c :: rest =>
      match parseNumber (c :: rest) with
      | some (lex, r) => some (Json.num (String.mk lex), r)
      | none => none

/-- Parse the elements of a non-empty JSON array (after the opening bracket). -/
def parseElems : Nat → List Char → Option (List Json × List Char)
  | 0, _ => none
  | fuel + 1, cs =>
    match parseValue fuel cs with
    | none => none
    | some (v, r) =>
      match skipWs r with
      | ',' :: r2 =>
        match parseElems fuel r2 with
        | some (vs, r3) => some (v :: vs, r3)
        | none => none
      | ']' :: r2 => some ([v], r2)
      | _ => none

/-- Parse the fields of a non-empty JSON object (after the opening brace). -/
def parseFields : Nat → List Char → Option (List (String × Json) × List Char)
  | 0, _ => none
  | fuel + 1, cs =>
    match skipWs cs with
    | '"' :: rest =>
      match parseStringBody (rest.length + 1) rest with
      | none => none
      | some (key, r) =>
        match skipWs r with
        | ':' :: r2 =>
          match parseValue fuel r2 with
          | none => none
          | some (v, r3) =>
            match skipWs r3 with
            | ',' :: r4 =>
              match parseFields fuel r4 with
              | some (fs, r5) => some ((String.mk key, v) :: fs, r5)
              | none => none
            | '\x7d' :: r4 => some ([(String.mk key, v)], r4)
            | _ => none
        | _ => none
    | _ => none

end

/-- Model of JavaScript JSON.parse: some parsed value on success,
none when the string is not syntactically valid JSON. -/
def jsonParse (s : String) : Option Json :=
  match parseValue (2 * s.length + 2) s.data with
  | some (v, rest) =>
    match skipWs rest with
    | [] => some v
    | _ => none
  | none => none

/-
Shared data model of the three node variants.
-/

/-- A raw SQS message as returned by ReceiveMessage; every field may be absent. -/
structure RawMessage where
  MessageId : Option String
  Body : Option String
  ReceiptHandle : Option String
  MD5OfBody : Option String
  MD5OfMessageAttributes : Option String
  Attributes : Option (List (String × String))
  MessageAttributes : Option (List (String × String))
  deriving Repr

/-- One entry of a DeleteMessageBatch request (Id is "msg" ++ index+1). -/
structure BatchEntry where
  Id : String
  ReceiptHandle : Option String
  deriving Repr, DecidableEq

/-- A delete request issued against the SQS client: DeleteMessageCommand or
DeleteMessageBatchCommand. -/
inductive DeleteCall where
  | single (queueUrl : String) (receiptHandle : Option String) : DeleteCall
  | batch (queueUrl : String) (entries : List BatchEntry) : DeleteCall
  deriving Repr, DecidableEq

/-- Whether a delete call is a batch delete. -/
def DeleteCall.isBatch : DeleteCall → Bool
  | .batch _ _ => true
  | .single _ _ => false

/-- JavaScript truthiness of an optional string (undefined and "" are falsy). -/
def jsTruthyStr (o : Option String) : Bool :=
  match o with
  | some s => s ≠ ""
  | none => false

/-- JavaScript `body || deflt` on an optional string. -/
def jsOrElse (body : Option String) (deflt : String) : String :=
  match body with
  | some s => if s = "" then deflt else s
  | none => deflt

/-- Outcome of the single ReceiveMessage call of one cycle: either a response
whose Messages field may be absent, or a transport/service error. -/
inductive FetchOutcome where
  | ok (messages : Option (List RawMessage)) : FetchOutcome
  | err (message : String) : FetchOutcome
  deriving Repr

/-- The normalized record built by the trigger (part_000) and poll (part_001)
variants: the json payload of the emitted INodeExecutionData. -/
structure NodeExecutionData where
  messageId : Option String
  body : Option String
  receiptHandle : Option String
  md5OfBody : Option String
  attributes : List (String × String)
  messageAttributes : List (String × String)
  timestamp : String
  parsedBody : Option Json
  deriving Repr

/-- Transform of one raw message into the normalized record, as written
identically in the trigger and poll variants: copy the fields, default the
attribute maps to empty, stamp the capture time, then
JSON.parse(message.Body || "\x7b\x7d") with null (here: none) on parse failure. -/
def normalizeMessage (now : String) (m : RawMessage) : NodeExecutionData :=
  { messageId := m.MessageId
    body := m.Body
    receiptHandle := m.ReceiptHandle
    md5OfBody := m.MD5OfBody
    attributes := m.Attributes.getD []
    messageAttributes := m.MessageAttributes.getD []
    timestamp := now
    parsedBody := jsonParse (jsOrElse m.Body "\x7b\x7d") }

/-
Embedding of the host-scheduled poll variant (part_001, `poll`).
-/

namespace PollVariant

/-- Configuration of the poll variant relevant to the cycle. -/
structure Config where
  queueUrl : String
  autoDelete : Bool
  deriving Repr

/-- Aggregate result of one poll invocation body. -/
structure PollOutput where
  records : List NodeExecutionData
  deletes : List DeleteCall
  warnings : List (Option String)
  deriving Repr

/-- The per-message loop of poll: build the record, push it, then if
autoDelete and the message has a (truthy) receipt handle, send a single
DeleteMessageCommand; a failed delete only logs a warning (keyed here by the
message id). `deleteOk` is the oracle telling whether a given send succeeds. -/
def pollLoop (cfg : Config) (now : String) (deleteOk : DeleteCall → Bool) :
    List RawMessage → PollOutput
  | [] => { records := [], deletes := [], warnings := [] }
  | m :: rest =>
    let record := normalizeMessage now m
    let dels : List DeleteCall :=
      if cfg.autoDelete ∧ jsTruthyStr m.ReceiptHandle then
        [DeleteCall.single cfg.queueUrl m.ReceiptHandle]
      else []
    let warns : List (Option String) :=
      if cfg.autoDelete ∧ jsTruthyStr m.ReceiptHandle ∧
          deleteOk (DeleteCall.single cfg.queueUrl m.ReceiptHandle) = false then
        [m.MessageId]
      else []
    let restOut := pollLoop cfg now deleteOk rest
    { records := record :: restOut.records
      deletes := dels ++ restOut.deletes
      warnings := warns ++ restOut.warnings }

/-- Result of the whole poll call: the value returned to the host
(a list of item lists) together with the delete calls and warnings. -/
structure PollResult where
  returned : List (List NodeExecutionData)
  deletes : List DeleteCall
  warnings : List (Option String)
  deriving Repr

/-- The poll entry point: receive once; a missing or empty Messages field
returns the empty result; a transport error is rethrown as a
NodeOperationError (Except.error); otherwise run the per-message loop and
return the records wrapped as one output branch. -/
def poll (cfg : Config) (now : String) (deleteOk : DeleteCall → Bool)
    (fetch : FetchOutcome) : Except String PollResult :=
  match fetch with
  | .err e => .error ("Failed to receive messages from SQS queue: " ++ e)
  | .ok none => .ok { returned := [], deletes := [], warnings := [] }
  | .ok (some []) => .ok { returned := [], deletes := [], warnings := [] }
  | .ok (some (m :: ms)) =>
    let out := pollLoop cfg now deleteOk (m :: ms)
    .ok { returned := [out.records], deletes := out.deletes, warnings := out.warnings }

end PollVariant

/-
Embedding of the continuous-polling trigger variant with deferred
acknowledgment (part_000, `trigger` / `processMessage` / `pollForMessages` /
`startPolling` / `closeFunction` / `deleteMessage`).
-/

namespace TriggerVariant

/-- The acknowledge parameter of the trigger variant. -/
inductive Ack where
  | immediately : Ack
  | executionFinishes : Ack
  | executionFinishesSuccessfully : Ack
  deriving Repr, DecidableEq

/-- Configuration of the trigger variant relevant to the cycle. -/
structure Config where
  queueUrl : String
  acknowledge : Ack
  parallelMessages : Int
  deriving Repr

/-- Value stored in the activeMessages map for one in-flight message. -/
structure TrackedMessage where
  receiptHandle : Option String
  queueUrl : String
  deriving Repr, DecidableEq

/-- The messageTracker object: the activeMessages Map (as an association
list keyed by the message id, which may itself be absent) and the
closeRequested flag. -/
structure MessageTracker where
  activeMessages : List (Option String × TrackedMessage)
  closeRequested : Bool
  deriving Repr, DecidableEq

/-- Map.get on the association list. -/
def mapGet (l : List (Option String × TrackedMessage)) (k : Option String) :
    Option TrackedMessage :=
  match l with
  | [] => none
  | (k', v) :: rest => if k' = k then some v else mapGet rest k

/-- Map.set on the association list: replace in place or append. -/
def mapSet (l : List (Option String × TrackedMessage)) (k : Option String)
    (v : TrackedMessage) : List (Option String × TrackedMessage) :=
  match l with
  | [] => [(k, v)]
  | (k', v') :: rest => if k' = k then (k, v) :: rest else (k', v') :: mapSet rest k v

/-- Map.delete on the association list (keys are unique in a JS Map, so
removing every pair with the key is the Map behaviour). -/
def mapDelete (l : List (Option String × TrackedMessage)) (k : Option String) :
    List (Option String × TrackedMessage) :=
  l.filter (fun e => e.1 ≠ k)

/-- The completion hook the emit call registers for a message, carrying which
lifecycle event triggers the deferred delete. -/
inductive CompletionHook where
  | noHook : CompletionHook
  | onExecutionFinished (messageId : Option String) : CompletionHook
  | onExecutionFinishedSuccessfully (messageId : Option String) : CompletionHook
  deriving Repr, DecidableEq

/-- Observable effects of processing messages: records emitted, delete calls
sent, delete-failure warnings (keyed by message id) and the completion hooks
registered with the emits. -/
structure Effects where
  emits : List NodeExecutionData
  deletes : List DeleteCall
  warnings : List (Option String)
  hooks : List CompletionHook
  deriving Repr

/-- No effects. -/
def emptyEffects : Effects := { emits := [], deletes := [], warnings := [], hooks := [] }

/-- Sequential composition of effects. -/
def appendEffects (a b : Effects) : Effects :=
  { emits := a.emits ++ b.emits
    deletes := a.deletes ++ b.deletes
    warnings := a.warnings ++ b.warnings
    hooks := a.hooks ++ b.hooks }

/-- processMessage: return immediately when close was requested; otherwise
build the record, track the message when acknowledgment is deferred, delete
at once (failure only warns) when acknowledgment is immediate and the
receipt handle is truthy, and emit the record with the matching completion
hook registered. -/
def processMessage (cfg : Config) (now : String) (deleteOk : DeleteCall → Bool)
    (tracker : MessageTracker) (m : RawMessage) : MessageTracker × Effects :=
  if tracker.closeRequested then (tracker, emptyEffects)
  else
    let record := normalizeMessage now m
    let tracker1 :=
      if cfg.acknowledge ≠ Ack.immediately then
        { tracker with
          activeMessages :=
            mapSet tracker.activeMessages m.MessageId
              { receiptHandle := m.ReceiptHandle, queueUrl := cfg.queueUrl } }
      else tracker
    let dels : List DeleteCall :=
      if cfg.acknowledge = Ack.immediately ∧ jsTruthyStr m.ReceiptHandle then
        [DeleteCall.single cfg.queueUrl m.ReceiptHandle]
      else []
    let warns : List (Option String) :=
      if cfg.acknowledge = Ack.immediately ∧ jsTruthyStr m.ReceiptHandle ∧
          deleteOk (DeleteCall.single cfg.queueUrl m.ReceiptHandle) = false then
        [m.MessageId]
      else []
    let hook :=
      match cfg.acknowledge with
      | Ack.immediately => CompletionHook.noHook
      | Ack.executionFinishes => CompletionHook.onExecutionFinished m.MessageId
      | Ack.executionFinishesSuccessfully =>
        CompletionHook.onExecutionFinishedSuccessfully m.MessageId
    (tracker1, { emits := [record], deletes := dels, warnings := warns, hooks := [hook] })

/-- The private deleteMessage method, invoked by the completion hooks: look
the message up in the tracking map; when present, send one single delete with
the stored receipt handle and queue url, and remove the entry only when the
send succeeds (a failed send warns and keeps the entry). -/
def deleteMessage (deleteOk : DeleteCall → Bool) (tracker : MessageTracker)
    (messageId : Option String) : MessageTracker × Effects :=
  match mapGet tracker.activeMessages messageId with
  | none => (tracker, emptyEffects)
  | some md =>
    let call := DeleteCall.single md.queueUrl md.receiptHandle
    if deleteOk call then
      ({ tracker with activeMessages := mapDelete tracker.activeMessages messageId },
        { emptyEffects with deletes := [call] })
    else
      (tracker, { emptyEffects with deletes := [call], warnings := [messageId] })

/-- The cleanup loop of closeFunction: attempt one delete per tracked entry
with its stored receipt handle and queue url, warning on failure. -/
def cleanupLoop (deleteOk : DeleteCall → Bool) :
    List (Option String × TrackedMessage) → List DeleteCall × List (Option String)
  | [] => ([], [])
  | (mid, md) :: rest =>
    let call := DeleteCall.single md.queueUrl md.receiptHandle
    let (cs, ws) := cleanupLoop deleteOk rest
    (call :: cs, (if deleteOk call then ([] : List (Option String)) else [mid]) ++ ws)

/-- closeFunction: set closeRequested, attempt a delete for every tracked
message, then clear the map unconditionally. -/
def closeFunction (deleteOk : DeleteCall → Bool) (tracker : MessageTracker) :
    MessageTracker × List DeleteCall × List (Option String) :=
  let t1 := { tracker with closeRequested := true }
  let calls := (cleanupLoop deleteOk t1.activeMessages).1
  let warns := (cleanupLoop deleteOk t1.activeMessages).2
  ({ t1 with activeMessages := [] }, calls, warns)

/-- Observable effects of one scheduled cycle: whether a ReceiveMessage call
was sent, plus the processing effects and the per-cycle emitError messages. -/
structure CycleEffects where
  fetched : Bool
  emits : List NodeExecutionData
  deletes : List DeleteCall
  warnings : List (Option String)
  hooks : List CompletionHook
  errors : List String
  deriving Repr

/-- The effects of a cycle that did nothing. -/
def noCycle : CycleEffects :=
  { fetched := false, emits := [], deletes := [], warnings := [], hooks := [], errors := [] }

/-- Sequential processing of the fetched messages. -/
def processLoop (cfg : Config) (now : String) (deleteOk : DeleteCall → Bool) :
    MessageTracker → List RawMessage → MessageTracker × Effects
  | t, [] => (t, emptyEffects)
  | t, m :: rest =>
    let (t1, eff) := processMessage cfg now deleteOk t m
    let (t2, effs) := processLoop cfg now deleteOk t1 rest
    (t2, appendEffects eff effs)

/-- pollForMessages: skip entirely when close was requested or a poll is in
flight; skip (without queueing) when a finite parallelMessages cap is
reached by the tracking-map size; otherwise send one ReceiveMessage call —
an error is reported via emitError for this cycle only, an absent or empty
Messages field does nothing, and messages are processed in order. -/
def pollForMessages (cfg : Config) (now : String) (deleteOk : DeleteCall → Bool)
    (isPolling : Bool) (fetch : FetchOutcome) (tracker : MessageTracker) :
    MessageTracker × CycleEffects :=
  if tracker.closeRequested ∨ isPolling then (tracker, noCycle)
  else if cfg.parallelMessages ≠ -1 ∧
      (tracker.activeMessages.length : Int) ≥ cfg.parallelMessages then
    (tracker, noCycle)
  else
    match fetch with
    | .err e =>
      (tracker,
        { noCycle with
          fetched := true
          errors := ["Failed to receive messages from SQS queue: " ++ e] })
    | .ok none => (tracker, { noCycle with fetched := true })
    | .ok (some []) => (tracker, { noCycle with fetched := true })
    | .ok (some (m :: ms)) =>
      let (t1, eff) := processLoop cfg now deleteOk tracker (m :: ms)
      (t1,
        { fetched := true, emits := eff.emits, deletes := eff.deletes
          warnings := eff.warnings, hooks := eff.hooks, errors := [] })

/-- startPolling: run scheduled cycles over a trace of fetch outcomes; each
iteration runs only while close has not been requested, and the next
iteration is scheduled only when close has still not been requested after
the cycle. -/
def startPolling (cfg : Config) (now : String) (deleteOk : DeleteCall → Bool) :
    MessageTracker → List FetchOutcome → MessageTracker × List CycleEffects
  | t, [] => (t, [])
  | t, f :: fs =>
    if t.closeRequested then (t, [])
    else
      let (t1, eff) := pollForMessages cfg now deleteOk false f t
      if t1.closeRequested then (t1, [eff])
      else
        let (t2, effs) := startPolling cfg now deleteOk t1 fs
        (t2, eff :: effs)

/-- The default of the Parallel Message Processing Limit parameter. -/
def parallelMessagesDefault : Int := -1

end TriggerVariant

/-- The trigger variant's startup validation of the Parallel Message
Processing Limit: 0, or anything below -1, is rejected with a
NodeOperationError before the polling loop (and hence any SQS call) starts.
(The NaN case of the source guard has no counterpart on Int.) -/
def TriggerVariant.validateParallelMessages (p : Int) : Except String Unit :=
  if p = 0 ∨ p < -1 then
    .error
      "Parallel message processing limit must be a number greater than zero (or -1 for no limit)"
  else .ok ()

/-
Embedding of the interval trigger variant with batch delete
(part_002, `trigger` / `executeTrigger` / `run`).
-/

namespace IntervalVariant

/-- The parsedBody field of this variant: the parsed JSON value when the body
parses (or the empty object for an absent body), otherwise the original raw
body string. -/
inductive ParsedBody where
  | json (v : Json) : ParsedBody
  | raw (s : String) : ParsedBody
  deriving Repr

/-- The normalized record emitted by this variant. -/
structure ExecutionData where
  messageId : Option String
  receiptHandle : Option String
  body : Option String
  parsedBody : ParsedBody
  attributes : List (String × String)
  messageAttributes : List (String × String)
  md5OfBody : Option String
  md5OfMessageAttributes : Option String
  deriving Repr

/-- Body parsing of this variant: `message.Body ? JSON.parse(message.Body)
: \x7b\x7d`, with the raw body string as the catch fallback. An absent (or
falsy empty) body yields the empty object without parsing. -/
def parseBody (body : Option String) : ParsedBody :=
  match body with
  | none => ParsedBody.json (Json.obj [])
  | some s =>
    if s = "" then ParsedBody.json (Json.obj [])
    else
      match jsonParse s with
      | some v => ParsedBody.json v
      | none => ParsedBody.raw s

/-- Transform of one raw message into this variant's record. -/
def transformMessage (m : RawMessage) : ExecutionData :=
  { messageId := m.MessageId
    receiptHandle := m.ReceiptHandle
    body := m.Body
    parsedBody := parseBody m.Body
    attributes := m.Attributes.getD []
    messageAttributes := m.MessageAttributes.getD []
    md5OfBody := m.MD5OfBody
    md5OfMessageAttributes := m.MD5OfMessageAttributes }

/-- The options collection fields used by the cycle. -/
structure Options where
  deleteMessages : Option Bool
  deriving Repr

/-- The batch-delete entries: Id "msg" ++ (index+1) with each message's
receipt handle, in fetch order (index starts at 0). -/
def buildEntries (i : Nat) : List RawMessage → List BatchEntry
  | [] => []
  | m :: rest =>
    { Id := "msg" ++ toString (i + 1), ReceiptHandle := m.ReceiptHandle } ::
      buildEntries (i + 1) rest

/-- Observable effects of one successful executeTrigger invocation. -/
structure Effects where
  emits : List (List ExecutionData)
  deletes : List DeleteCall
  deriving Repr

/-- executeTrigger: one receive; a transport error is rethrown (wrapped as a
NodeApiError). With messages present and deleteMessages not disabled, one
single delete is sent for exactly one message and one batch delete covering
every handle is sent for more than one; a failed delete also rethrows,
before the emit. The emit of the transformed records happens last. -/
def executeTrigger (queueUrl : String) (opts : Options)
    (deleteOk : DeleteCall → Bool) (fetch : FetchOutcome) : Except String Effects :=
  match fetch with
  | .err e => .error e
  | .ok none => .ok { emits := [], deletes := [] }
  | .ok (some []) => .ok { emits := [], deletes := [] }
  | .ok (some (m :: ms)) =>
    let returnMessages := (m :: ms).map transformMessage
    if opts.deleteMessages ≠ some false then
      match ms with
      | [] =>
        let call := DeleteCall.single queueUrl m.ReceiptHandle
        if deleteOk call then .ok { emits := [returnMessages], deletes := [call] }
        else .error "delete failed"
      | _ :: _ =>
        let call := DeleteCall.batch queueUrl (buildEntries 0 (m :: ms))
        if deleteOk call then .ok { emits := [returnMessages], deletes := [call] }
        else .error "batch delete failed"
    else .ok { emits := [returnMessages], deletes := [] }

/-- The self-rescheduling run loop: `run` awaits executeTrigger and schedules
the next timeout only after it resolves; a rejection (fetch or delete error)
escapes `run`, so no further cycle is ever scheduled. The trace records each
cycle's outcome. -/
def runLoop (queueUrl : String) (opts : Options) (deleteOk : DeleteCall → Bool) :
    List FetchOutcome → List (Except String Effects)
  | [] => []
  | f :: fs =>
    match executeTrigger queueUrl opts deleteOk f with
    | .error e => [.error e]
    | .ok eff => .ok eff :: runLoop queueUrl opts deleteOk fs

/-- Interval units of the trigger. -/
inductive TimeUnit where
  | seconds : TimeUnit
  | minutes : TimeUnit
  | hours : TimeUnit
  deriving Repr, DecidableEq

/-- Seconds per unit. -/
def unitMultiplier : TimeUnit → Int
  | .seconds => 1
  | .minutes => 60
  | .hours => 3600

/-- The interval in milliseconds as computed by trigger. -/
def computeIntervalMs (interval : Int) (unit : TimeUnit) : Int :=
  interval * unitMultiplier unit * 1000

/-- The startup validation sequence of trigger, run before the SQS client is
created and hence before any network call: interval at least 1, wait time
(when given) within [0,20], and the millisecond interval within the
setTimeout range. On success it yields the millisecond interval. -/
def waitTimeOutOfRange (waitTimeSeconds : Option Int) : Bool :=
  match waitTimeSeconds with
  | some w => w < 0 || w > 20
  | none => false

def triggerValidate (interval : Int) (unit : TimeUnit) (waitTimeSeconds : Option Int) :
    Except String Int :=
  if interval ≤ 0 then .error "The interval has to be set to at least 1 or higher!"
  else if waitTimeOutOfRange waitTimeSeconds then
    .error "Wait Time Seconds must be between 0 and 20."
  else if computeIntervalMs interval unit > 2147483647 then
    .error "The interval value is too large."
  else .ok (computeIntervalMs interval unit)

/-- Whether an Except is an error. -/
def isErr {ε α : Type} (e : Except ε α) : Bool :=
  match e with
  | .error _ => true
  | .ok _ => false

end IntervalVariant

/-
Concrete fixtures for evaluating the embedding.
-/

/-- Oracle under which every SQS send succeeds. -/
def allOk : DeleteCall → Bool := fun _ => true

/-- Oracle under which every SQS send fails. -/
def allFail : DeleteCall → Bool := fun _ => false

/-- A raw message with a valid JSON body. -/
def sampleMsg1 : RawMessage :=
  { MessageId := some "msg-1"
    Body := some "\x7b\"a\":1\x7d"
    ReceiptHandle := some "r1"
    MD5OfBody := some "d41d8cd9"
    MD5OfMessageAttributes := none
    Attributes := none
    MessageAttributes := none }

/-- A raw message whose body is not valid JSON. -/
def sampleMsg2 : RawMessage :=
  { MessageId := some "msg-2"
    Body := some "not json"
    ReceiptHandle := some "r2"
    MD5OfBody := none
    MD5OfMessageAttributes := none
    Attributes := none
    MessageAttributes := none }

/-- A raw message with an absent body and absent attribute maps. -/
def sampleMsgNoBody : RawMessage :=
  { MessageId := some "msg-3"
    Body := none
    ReceiptHandle := some "r3"
    MD5OfBody := none
    MD5OfMessageAttributes := none
    Attributes := none
    MessageAttributes := none }

/-- Trigger-variant configuration with deferred acknowledgment, no cap. -/
def cfgDeferred : TriggerVariant.Config :=
  { queueUrl := "q", acknowledge := TriggerVariant.Ack.executionFinishes
    parallelMessages := -1 }

/-- Trigger-variant configuration with immediate acknowledgment, no cap. -/
def cfgImmediate : TriggerVariant.Config :=
  { queueUrl := "q", acknowledge := TriggerVariant.Ack.immediately
    parallelMessages := -1 }

/-- Trigger-variant configuration with deferred acknowledgment and cap 1. -/
def cfgCapOne : TriggerVariant.Config :=
  { queueUrl := "q", acknowledge := TriggerVariant.Ack.executionFinishes
    parallelMessages := 1 }

/-- An empty tracker with no close requested. -/
def emptyTracker : TriggerVariant.MessageTracker :=
  { activeMessages := [], closeRequested := false }

/-- An empty tracker after close was requested. -/
def closedTracker : TriggerVariant.MessageTracker :=
  { activeMessages := [], closeRequested := true }

/-- A tracker holding two in-flight messages. -/
def twoTracked : TriggerVariant.MessageTracker :=
  { activeMessages :=
      [(some "msg-1", { receiptHandle := some "r1", queueUrl := "q" }),
        (some "msg-2", { receiptHandle := some "r2", queueUrl := "q" })]
    closeRequested := false }

/-
Helper lemmas.
-/

/-- The empty-object literal parses to the empty JSON object. -/
theorem jsonParse_emptyObjLit : jsonParse "\x7b\x7d" = some (Json.obj []) := rfl

/-- A sample invalid body is rejected by the JSON parser. -/
theorem jsonParse_notJson : jsonParse "not json" = none := rfl

/-- The records of the per-message poll loop are exactly the normalized
messages, independently of the delete-outcome oracle. -/
theorem PollVariant.pollLoop_records (cfg : PollVariant.Config) (now : String)
    (deleteOk : DeleteCall → Bool) (msgs : List RawMessage) :
    (PollVariant.pollLoop cfg now deleteOk msgs).records =
      msgs.map (normalizeMessage now) := by
  induction msgs with
  | nil => rfl
  | cons m rest ih => simp [PollVariant.pollLoop, ih]

/-- Looking up the key just set returns the value just stored. -/
theorem TriggerVariant.mapGet_mapSet
    (l : List (Option String × TriggerVariant.TrackedMessage))
    (k : Option String) (v : TriggerVariant.TrackedMessage) :
    TriggerVariant.mapGet (TriggerVariant.mapSet l k v) k = some v := by
  induction l with
  | nil => simp [TriggerVariant.mapSet, TriggerVariant.mapGet]
  | cons e rest ih =>
    by_cases h : e.1 = k
    · simp [TriggerVariant.mapSet, TriggerVariant.mapGet, h]
    · simp [TriggerVariant.mapSet, TriggerVariant.mapGet, h, ih]

/-- Deleting a key removes it from the map. -/
theorem TriggerVariant.mapGet_mapDelete
    (l : List (Option String × TriggerVariant.TrackedMessage)) (k : Option String) :
    TriggerVariant.mapGet (TriggerVariant.mapDelete l k) k = none := by
  induction l with
  | nil => rfl
  | cons e rest ih =>
    by_cases h : e.1 = k
    · simpa [TriggerVariant.mapDelete, TriggerVariant.mapGet, h] using ih
    · simpa [TriggerVariant.mapDelete, TriggerVariant.mapGet, h] using ih

/-- The cleanup loop issues exactly the single deletes of the stored entries,
in order. -/
theorem TriggerVariant.cleanupLoop_calls (deleteOk : DeleteCall → Bool)
    (l : List (Option String × TriggerVariant.TrackedMessage)) :
    (TriggerVariant.cleanupLoop deleteOk l).1 =
      l.map (fun e => DeleteCall.single e.2.queueUrl e.2.receiptHandle) := by
  induction l with
  | nil => rfl
  | cons e rest ih => simp [TriggerVariant.cleanupLoop, ih]

/-- The batch entries carry exactly the fetched receipt handles, in order. -/
theorem IntervalVariant.buildEntries_handles (i : Nat) (msgs : List RawMessage) :
    (IntervalVariant.buildEntries i msgs).map (fun e => e.ReceiptHandle) =
      msgs.map (fun m => m.ReceiptHandle) := by
  induction msgs generalizing i with
  | nil => rfl
  | cons m rest ih => simp [IntervalVariant.buildEntries, ih]

/-- With no close requested, no overlapping poll and no finite cap, a
scheduled cycle always sends the receive call, whatever its outcome. -/
theorem TriggerVariant.pollForMessages_fetched (cfg : TriggerVariant.Config)
    (now : String) (deleteOk : DeleteCall → Bool) (fetch : FetchOutcome)
    (tracker : TriggerVariant.MessageTracker)
    (hclose : tracker.closeRequested = false) (hcap : cfg.parallelMessages = -1) :
    (TriggerVariant.pollForMessages cfg now deleteOk false fetch tracker).2.fetched = true := by
  cases fetch with
  | err e => simp [TriggerVariant.pollForMessages, hclose, hcap]
  | ok msgs =>
    cases msgs with
    | none => simp [TriggerVariant.pollForMessages, hclose, hcap]
    | some l =>
      cases l with
      | nil => simp [TriggerVariant.pollForMessages, hclose, hcap]
      | cons m ms => simp [TriggerVariant.pollForMessages, hclose, hcap]

/-- With no close requested, a fetch error leaves the tracker untouched and
only reports the wrapped message for that cycle. -/
theorem TriggerVariant.pollForMessages_err (cfg : TriggerVariant.Config)
    (now : String) (deleteOk : DeleteCall → Bool) (e : String)
    (tracker : TriggerVariant.MessageTracker)
    (hclose : tracker.closeRequested = false) (hcap : cfg.parallelMessages = -1) :
    TriggerVariant.pollForMessages cfg now deleteOk false (FetchOutcome.err e) tracker =
      (tracker,
        { TriggerVariant.noCycle with
          fetched := true
          errors := ["Failed to receive messages from SQS queue: " ++ e] }) := by
  simp [TriggerVariant.pollForMessages, hclose, hcap]

/-
Claim theorems.
-/

/-- C1 counterexample: in the poll variant (a deletion-enabled immediate
policy), a cycle that fetched two messages issues two single-delete calls
and no batch-delete call — refuting the claim that every deletion-enabled
immediate-or-batch cycle with more than one message issues exactly one
batch-delete covering all handles. -/
theorem C1_counterexample :
    (PollVariant.pollLoop { queueUrl := "q", autoDelete := true } "t0" allOk
        [sampleMsg1, sampleMsg2]).deletes =
      [DeleteCall.single "q" (some "r1"), DeleteCall.single "q" (some "r2")] ∧
    (PollVariant.pollLoop { queueUrl := "q", autoDelete := true } "t0" allOk
        [sampleMsg1, sampleMsg2]).deletes.countP DeleteCall.isBatch = 0 := by
  constructor
  · rfl
  · rfl

/-- C1 (amended): only the interval variant chooses batch deletion. There,
with deletion enabled and a successful delete send, a cycle that fetched
more than one message issues exactly one batch-delete whose entries cover
all fetched receipt handles in order, and a cycle that fetched exactly one
message issues a single-delete call instead; the poll and trigger variants
issue one single-delete per message even for several messages. -/
theorem C1_batch_delete_amended :
    (∀ (queueUrl : String) (opts : IntervalVariant.Options)
      (deleteOk : DeleteCall → Bool) (m m2 : RawMessage) (ms : List RawMessage),
      opts.deleteMessages ≠ some false →
      deleteOk (DeleteCall.batch queueUrl
        (IntervalVariant.buildEntries 0 (m :: m2 :: ms))) = true →
      IntervalVariant.executeTrigger queueUrl opts deleteOk
          (FetchOutcome.ok (some (m :: m2 :: ms))) =
        Except.ok
          { emits := [(m :: m2 :: ms).map IntervalVariant.transformMessage]
            deletes := [DeleteCall.batch queueUrl
              (IntervalVariant.buildEntries 0 (m :: m2 :: ms))] } ∧
      (IntervalVariant.buildEntries 0 (m :: m2 :: ms)).map (fun e => e.ReceiptHandle) =
        (m :: m2 :: ms).map (fun x => x.ReceiptHandle)) ∧
    (∀ (queueUrl : String) (opts : IntervalVariant.Options)
      (deleteOk : DeleteCall → Bool) (m : RawMessage),
      opts.deleteMessages ≠ some false →
      deleteOk (DeleteCall.single queueUrl m.ReceiptHandle) = true →
      IntervalVariant.executeTrigger queueUrl opts deleteOk
          (FetchOutcome.ok (some [m])) =
        Except.ok
          { emits := [[m].map IntervalVariant.transformMessage]
            deletes := [DeleteCall.single queueUrl m.ReceiptHandle] }) := by
  constructor
  · intro queueUrl opts deleteOk m m2 ms hdel hok
    constructor
    · simp [IntervalVariant.executeTrigger, hdel, hok]
    · exact IntervalVariant.buildEntries_handles 0 (m :: m2 :: ms)
  · intro queueUrl opts deleteOk m hdel hok
    simp [IntervalVariant.executeTrigger, hdel, hok]

/-- C1 witness: the amended batch property evaluated on a concrete
two-message fetch. -/
theorem C1_batch_delete_witness :
    IntervalVariant.executeTrigger "q" { deleteMessages := some true } allOk
        (FetchOutcome.ok (some [sampleMsg1, sampleMsg2])) =
      Except.ok
        { emits := [[sampleMsg1, sampleMsg2].map IntervalVariant.transformMessage]
          deletes := [DeleteCall.batch "q"
            (IntervalVariant.buildEntries 0 [sampleMsg1, sampleMsg2])] } ∧
    (IntervalVariant.buildEntries 0 [sampleMsg1, sampleMsg2]).map
        (fun e => e.ReceiptHandle) =
      [sampleMsg1, sampleMsg2].map (fun x => x.ReceiptHandle) :=
  C1_batch_delete_amended.1 "q" { deleteMessages := some true } allOk
    sampleMsg1 sampleMsg2 [] (by decide) rfl

/-- C2 counterexample: in the interval variant, deletion with a failing
delete send makes the whole cycle throw before the emit — the already
transformed record of the fetched message is discarded, refuting the claim
that a delete failure never discards the record. -/
theorem C2_counterexample :
    IntervalVariant.executeTrigger "q" { deleteMessages := some true } allFail
        (FetchOutcome.ok (some [sampleMsg1])) = Except.error "delete failed" := rfl

/-- C2 (amended): in the poll variant and the trigger variant, a failed
delete under immediate acknowledgment leaves the already-produced record in
the caller's hands — the poll result contains every normalized record for
any delete outcome, and processMessage emits the record for any delete
outcome while reporting the failure as a warning; in the interval variant a
failed delete throws before the emit and the cycle's records are lost. -/
theorem C2_delete_failure_amended :
    (∀ (cfg : PollVariant.Config) (now : String) (deleteOk : DeleteCall → Bool)
      (m : RawMessage) (ms : List RawMessage),
      PollVariant.poll cfg now deleteOk (FetchOutcome.ok (some (m :: ms))) =
        Except.ok
          { returned := [(m :: ms).map (normalizeMessage now)]
            deletes := (PollVariant.pollLoop cfg now deleteOk (m :: ms)).deletes
            warnings := (PollVariant.pollLoop cfg now deleteOk (m :: ms)).warnings }) ∧
    (∀ (cfg : TriggerVariant.Config) (now : String) (deleteOk : DeleteCall → Bool)
      (tracker : TriggerVariant.MessageTracker) (m : RawMessage),
      tracker.closeRequested = false →
      (TriggerVariant.processMessage cfg now deleteOk tracker m).2.emits =
        [normalizeMessage now m]) ∧
    (∀ (cfg : TriggerVariant.Config) (now : String) (deleteOk : DeleteCall → Bool)
      (tracker : TriggerVariant.MessageTracker) (m : RawMessage),
      tracker.closeRequested = false →
      cfg.acknowledge = TriggerVariant.Ack.immediately →
      jsTruthyStr m.ReceiptHandle = true →
      deleteOk (DeleteCall.single cfg.queueUrl m.ReceiptHandle) = false →
      (TriggerVariant.processMessage cfg now deleteOk tracker m).2.warnings =
        [m.MessageId]) := by
  refine ⟨?_, ?_, ?_⟩
  · intro cfg now deleteOk m ms
    simp only [PollVariant.poll, PollVariant.pollLoop_records]
  · intro cfg now deleteOk tracker m hclose
    simp [TriggerVariant.processMessage, hclose]
  · intro cfg now deleteOk tracker m hclose hack htruthy hfail
    simp [TriggerVariant.processMessage, hclose, hack, htruthy, hfail]

/-- C2 witness: the amended delete-failure property evaluated with an
all-failing delete oracle on a concrete message. -/
theorem C2_delete_failure_witness :
    PollVariant.poll { queueUrl := "q", autoDelete := true } "t0" allFail
        (FetchOutcome.ok (some [sampleMsg1])) =
      Except.ok
        { returned := [[sampleMsg1].map (normalizeMessage "t0")]
          deletes := (PollVariant.pollLoop { queueUrl := "q", autoDelete := true }
            "t0" allFail [sampleMsg1]).deletes
          warnings := (PollVariant.pollLoop { queueUrl := "q", autoDelete := true }
            "t0" allFail [sampleMsg1]).warnings } ∧
    (TriggerVariant.processMessage cfgImmediate "t0" allFail emptyTracker
        sampleMsg1).2.emits = [normalizeMessage "t0" sampleMsg1] ∧
    (TriggerVariant.processMessage cfgImmediate "t0" allFail emptyTracker
        sampleMsg1).2.warnings = [some "msg-1"] :=
  ⟨C2_delete_failure_amended.1 { queueUrl := "q", autoDelete := true } "t0" allFail
      sampleMsg1 [],
    C2_delete_failure_amended.2.1 cfgImmediate "t0" allFail emptyTracker sampleMsg1 rfl,
    C2_delete_failure_amended.2.2 cfgImmediate "t0" allFail emptyTracker sampleMsg1
      rfl rfl (by decide) rfl⟩

/-- C3 counterexample: in the interval variant, a cycle whose fetch fails
rejects out of `run`, so the next timeout is never scheduled — on a
two-cycle trace whose first fetch errors, only one cycle outcome exists and
the second cycle never attempts a fetch, refuting the claim that the next
scheduled cycle still attempts one in every variant. -/
theorem C3_counterexample :
    IntervalVariant.runLoop "q" { deleteMessages := some true } allOk
        [FetchOutcome.err "boom", FetchOutcome.ok (some [sampleMsg1])] =
      [Except.error "boom"] := rfl

/-- C3 (amended): in the continuous-polling trigger variant the claim holds —
a failing fetch is reported via emitError for that cycle only, the tracker is
untouched, the loop schedules the next cycle, and (with no finite cap) that
next cycle sends its receive call; in the interval variant a failing fetch
rejects out of the cycle and stops the rescheduling loop. -/
theorem C3_fetch_error_amended :
    ∀ (cfg : TriggerVariant.Config) (now : String) (deleteOk : DeleteCall → Bool)
      (tracker : TriggerVariant.MessageTracker) (e : String) (fs : List FetchOutcome),
      tracker.closeRequested = false →
      cfg.parallelMessages = -1 →
      TriggerVariant.pollForMessages cfg now deleteOk false (FetchOutcome.err e)
          tracker =
        (tracker,
          { TriggerVariant.noCycle with
            fetched := true
            errors := ["Failed to receive messages from SQS queue: " ++ e] }) ∧
      TriggerVariant.startPolling cfg now deleteOk tracker (FetchOutcome.err e :: fs) =
        ((TriggerVariant.startPolling cfg now deleteOk tracker fs).1,
          { TriggerVariant.noCycle with
            fetched := true
            errors := ["Failed to receive messages from SQS queue: " ++ e] } ::
            (TriggerVariant.startPolling cfg now deleteOk tracker fs).2) ∧
      (∀ (f2 : FetchOutcome),
        (TriggerVariant.pollForMessages cfg now deleteOk false f2 tracker).2.fetched =
          true) := by
  intro cfg now deleteOk tracker e fs hclose hcap
  refine ⟨TriggerVariant.pollForMessages_err cfg now deleteOk e tracker hclose hcap,
    ?_, fun f2 => TriggerVariant.pollForMessages_fetched cfg now deleteOk f2 tracker
      hclose hcap⟩
  simp [TriggerVariant.startPolling, hclose,
    TriggerVariant.pollForMessages_err cfg now deleteOk e tracker hclose hcap]

/-- C3 witness: the amended fetch-error property evaluated on a concrete
trace of one failing fetch followed by one empty fetch. -/
theorem C3_fetch_error_witness :
    TriggerVariant.pollForMessages cfgImmediate "t0" allOk false
        (FetchOutcome.err "boom") emptyTracker =
      (emptyTracker,
        { TriggerVariant.noCycle with
          fetched := true
          errors := ["Failed to receive messages from SQS queue: " ++ "boom"] }) ∧
    TriggerVariant.startPolling cfgImmediate "t0" allOk emptyTracker
        (FetchOutcome.err "boom" :: [FetchOutcome.ok none]) =
      ((TriggerVariant.startPolling cfgImmediate "t0" allOk emptyTracker
          [FetchOutcome.ok none]).1,
        { TriggerVariant.noCycle with
          fetched := true
          errors := ["Failed to receive messages from SQS queue: " ++ "boom"] } ::
          (TriggerVariant.startPolling cfgImmediate "t0" allOk emptyTracker
            [FetchOutcome.ok none]).2) ∧
    (TriggerVariant.pollForMessages cfgImmediate "t0" allOk false
        (FetchOutcome.ok none) emptyTracker).2.fetched = true :=
  ⟨(C3_fetch_error_amended cfgImmediate "t0" allOk emptyTracker "boom"
      [FetchOutcome.ok none] rfl rfl).1,
    (C3_fetch_error_amended cfgImmediate "t0" allOk emptyTracker "boom"
      [FetchOutcome.ok none] rfl rfl).2.1,
    (C3_fetch_error_amended cfgImmediate "t0" allOk emptyTracker "boom"
      [FetchOutcome.ok none] rfl rfl).2.2 (FetchOutcome.ok none)⟩

/-- C4: under deferred acknowledgment, processing a message issues no delete
call and records the message's receipt handle and queue url in the tracking
map; the completion-hook handler deleteMessage then issues exactly one
single-delete with the stored handle and queue url for a tracked message,
and the tracking entry is gone afterwards exactly when that delete
succeeded. -/
theorem C4_deferred_ack :
    ∀ (cfg : TriggerVariant.Config) (now : String) (deleteOk : DeleteCall → Bool)
      (tracker : TriggerVariant.MessageTracker) (m : RawMessage),
      cfg.acknowledge ≠ TriggerVariant.Ack.immediately →
      tracker.closeRequested = false →
      (TriggerVariant.processMessage cfg now deleteOk tracker m).2.deletes = [] ∧
      TriggerVariant.mapGet
          ((TriggerVariant.processMessage cfg now deleteOk tracker m).1).activeMessages
          m.MessageId =
        some { receiptHandle := m.ReceiptHandle, queueUrl := cfg.queueUrl } ∧
      (∀ (t : TriggerVariant.MessageTracker) (mid : Option String)
        (md : TriggerVariant.TrackedMessage) (ok2 : DeleteCall → Bool),
        TriggerVariant.mapGet t.activeMessages mid = some md →
        (TriggerVariant.deleteMessage ok2 t mid).2.deletes =
          [DeleteCall.single md.queueUrl md.receiptHandle] ∧
        (TriggerVariant.mapGet
            ((TriggerVariant.deleteMessage ok2 t mid).1).activeMessages mid = none ↔
          ok2 (DeleteCall.single md.queueUrl md.receiptHandle) = true)) := by
  intro cfg now deleteOk tracker m hack hclose
  refine ⟨?_, ?_, ?_⟩
  · simp [TriggerVariant.processMessage, hclose, hack]
  · simp [TriggerVariant.processMessage, hclose, hack, TriggerVariant.mapGet_mapSet]
  · intro t mid md ok2 hget
    by_cases hok : ok2 (DeleteCall.single md.queueUrl md.receiptHandle) = true
    · refine ⟨?_, ?_⟩
      · simp [TriggerVariant.deleteMessage, hget, hok]
      · simp [TriggerVariant.deleteMessage, hget, hok, TriggerVariant.mapGet_mapDelete]
    · refine ⟨?_, ?_⟩
      · simp [TriggerVariant.deleteMessage, hget, hok]
      · simp [TriggerVariant.deleteMessage, hget, hok]

/-- C4 witness: the deferred-acknowledgment lifecycle evaluated on a concrete
message and a concrete two-entry tracker, with a succeeding and a failing
delete oracle. -/
theorem C4_deferred_ack_witness :
    (TriggerVariant.processMessage cfgDeferred "t0" allOk emptyTracker
        sampleMsg1).2.deletes = [] ∧
    TriggerVariant.mapGet
        ((TriggerVariant.processMessage cfgDeferred "t0" allOk emptyTracker
          sampleMsg1).1).activeMessages (some "msg-1") =
      some { receiptHandle := some "r1", queueUrl := "q" } ∧
    (TriggerVariant.deleteMessage allOk twoTracked (some "msg-1")).2.deletes =
      [DeleteCall.single "q" (some "r1")] ∧
    TriggerVariant.mapGet
        ((TriggerVariant.deleteMessage allOk twoTracked (some "msg-1")).1).activeMessages
        (some "msg-1") = none ∧
    (TriggerVariant.deleteMessage allFail twoTracked (some "msg-1")).2.deletes =
      [DeleteCall.single "q" (some "r1")] ∧
    TriggerVariant.mapGet
        ((TriggerVariant.deleteMessage allFail twoTracked
          (some "msg-1")).1).activeMessages (some "msg-1") =
      some { receiptHandle := some "r1", queueUrl := "q" } := by
  have h := C4_deferred_ack cfgDeferred "t0" allOk emptyTracker sampleMsg1
    (by decide) rfl
  have hs := h.2.2 twoTracked (some "msg-1")
    { receiptHandle := some "r1", queueUrl := "q" } allOk (by decide)
  have hf := h.2.2 twoTracked (some "msg-1")
    { receiptHandle := some "r1", queueUrl := "q" } allFail (by decide)
  exact ⟨h.1, h.2.1, hs.1, hs.2.mpr rfl, hf.1, by decide⟩

/-- C5: shutdown cleanup attempts exactly one delete per tracked entry — the
delete calls are precisely the single deletes built from each entry's stored
queue url and receipt handle, one per entry — and afterwards the tracking
map is empty and the close flag set, for every delete-outcome oracle. -/
theorem C5_shutdown_cleanup :
    ∀ (deleteOk : DeleteCall → Bool) (tracker : TriggerVariant.MessageTracker),
      (TriggerVariant.closeFunction deleteOk tracker).2.1 =
        tracker.activeMessages.map
          (fun e => DeleteCall.single e.2.queueUrl e.2.receiptHandle) ∧
      (TriggerVariant.closeFunction deleteOk tracker).2.1.length =
        tracker.activeMessages.length ∧
      (TriggerVariant.closeFunction deleteOk tracker).1.activeMessages = [] ∧
      (TriggerVariant.closeFunction deleteOk tracker).1.closeRequested = true := by
  intro deleteOk tracker
  refine ⟨?_, ?_, rfl, rfl⟩
  · simpa [TriggerVariant.closeFunction] using
      TriggerVariant.cleanupLoop_calls deleteOk tracker.activeMessages
  · simp [TriggerVariant.closeFunction, TriggerVariant.cleanupLoop_calls]

/-- C6: every configuration with interval at most 0, or a wait time outside
[0,20], or a millisecond interval beyond the setTimeout range, makes the
interval variant's startup validation fail — and this validation runs before
the SQS client is created, hence before any network call — and a concurrency
cap of 0 or below -1 makes the trigger variant's startup validation fail
likewise before its polling loop starts. -/
theorem C6_config_validation :
    ∀ (interval : Int) (unit : IntervalVariant.TimeUnit) (wopt : Option Int) (p : Int),
      ((interval ≤ 0 ∨ IntervalVariant.waitTimeOutOfRange wopt = true ∨
          IntervalVariant.computeIntervalMs interval unit > 2147483647) →
        IntervalVariant.isErr (IntervalVariant.triggerValidate interval unit wopt) =
          true) ∧
      ((p = 0 ∨ p < -1) →
        IntervalVariant.isErr (TriggerVariant.validateParallelMessages p) = true) := by
  intro interval unit wopt p
  constructor
  · intro h
    by_cases h1 : interval ≤ 0
    · simp [IntervalVariant.triggerValidate, h1, IntervalVariant.isErr]
    · by_cases h2 : IntervalVariant.waitTimeOutOfRange wopt = true
      · simp [IntervalVariant.triggerValidate, h1, h2, IntervalVariant.isErr]
      · have h3 : IntervalVariant.computeIntervalMs interval unit > 2147483647 := by
          rcases h with h | h | h
          · exact absurd h h1
          · exact absurd h h2
          · exact h
        simp [IntervalVariant.triggerValidate, h1, h2, h3, IntervalVariant.isErr]
  · intro h
    unfold TriggerVariant.validateParallelMessages
    rw [if_pos h]
    rfl

/-- C6 witness: each rejected configuration evaluated concretely — interval
0, wait time 25, interval 2147484 seconds (2147484000 ms), cap 0 and cap
-2. -/
theorem C6_config_validation_witness :
    IntervalVariant.isErr
        (IntervalVariant.triggerValidate 0 IntervalVariant.TimeUnit.seconds none) =
      true ∧
    IntervalVariant.isErr
        (IntervalVariant.triggerValidate 1 IntervalVariant.TimeUnit.seconds
          (some 25)) = true ∧
    IntervalVariant.isErr
        (IntervalVariant.triggerValidate 2147484 IntervalVariant.TimeUnit.seconds
          none) = true ∧
    IntervalVariant.isErr (TriggerVariant.validateParallelMessages 0) = true ∧
    IntervalVariant.isErr (TriggerVariant.validateParallelMessages (-2)) = true :=
  ⟨(C6_config_validation 0 IntervalVariant.TimeUnit.seconds none 0).1
      (Or.inl (by decide)),
    (C6_config_validation 1 IntervalVariant.TimeUnit.seconds (some 25) 0).1
      (Or.inr (Or.inl (by decide))),
    (C6_config_validation 2147484 IntervalVariant.TimeUnit.seconds none 0).1
      (Or.inr (Or.inr (by decide))),
    (C6_config_validation 0 IntervalVariant.TimeUnit.seconds none 0).2 (Or.inl rfl),
    (C6_config_validation 0 IntervalVariant.TimeUnit.seconds none (-2)).2
      (Or.inr (by decide))⟩

/-- C7: in deferred mode with a finite concurrency cap, a scheduled cycle
whose tracking-map size is at or above the cap returns before the receive
call — no fetch, no effects, tracker unchanged (skipped, not queued); the
cap default is -1, and -1 means unlimited: with it no cap ever blocks and
every scheduled cycle (no close requested, no overlap) sends its fetch. -/
theorem C7_concurrency_cap :
    ∀ (cfg : TriggerVariant.Config) (now : String) (deleteOk : DeleteCall → Bool)
      (isPolling : Bool) (fetch : FetchOutcome)
      (tracker : TriggerVariant.MessageTracker),
      (cfg.parallelMessages ≠ -1 →
        (tracker.activeMessages.length : Int) ≥ cfg.parallelMessages →
        TriggerVariant.pollForMessages cfg now deleteOk isPolling fetch tracker =
          (tracker, TriggerVariant.noCycle)) ∧
      TriggerVariant.parallelMessagesDefault = -1 ∧
      (cfg.parallelMessages = -1 → tracker.closeRequested = false →
        (TriggerVariant.pollForMessages cfg now deleteOk false fetch
            tracker).2.fetched = true) := by
  intro cfg now deleteOk isPolling fetch tracker
  refine ⟨?_, rfl, ?_⟩
  · intro hne hge
    unfold TriggerVariant.pollForMessages
    by_cases h0 : tracker.closeRequested = true ∨ isPolling = true
    · rw [if_pos h0]
    · rw [if_neg h0, if_pos ⟨hne, hge⟩]
  · intro hcap hclose
    exact TriggerVariant.pollForMessages_fetched cfg now deleteOk fetch tracker
      hclose hcap

/-- C7 witness: cap 1 with two in-flight messages skips the fetch entirely,
and the unlimited default fetches. -/
theorem C7_concurrency_cap_witness :
    TriggerVariant.pollForMessages cfgCapOne "t0" allOk false
        (FetchOutcome.ok (some [sampleMsg1])) twoTracked =
      (twoTracked, TriggerVariant.noCycle) ∧
    TriggerVariant.parallelMessagesDefault = -1 ∧
    (TriggerVariant.pollForMessages cfgDeferred "t0" allOk false
        (FetchOutcome.ok (some [sampleMsg1])) emptyTracker).2.fetched = true :=
  ⟨(C7_concurrency_cap cfgCapOne "t0" allOk false
      (FetchOutcome.ok (some [sampleMsg1])) twoTracked).1 (by decide) (by decide),
    (C7_concurrency_cap cfgCapOne "t0" allOk false
      (FetchOutcome.ok (some [sampleMsg1])) twoTracked).2.1,
    (C7_concurrency_cap cfgDeferred "t0" allOk false
      (FetchOutcome.ok (some [sampleMsg1])) emptyTracker).2.2 rfl rfl⟩

/-- C8: for every raw message whose non-empty body is not valid JSON, the
transform still produces the record without raising — the trigger/poll
variants set the parsed-body field to the null marker (none) and the
interval variant sets it to the original raw body string — and the poll
call succeeds, returning the record. -/
theorem C8_invalid_json_fallback :
    ∀ (now : String) (m : RawMessage) (s : String),
      m.Body = some s → s ≠ "" → jsonParse s = none →
      (normalizeMessage now m).parsedBody = none ∧
      (IntervalVariant.transformMessage m).parsedBody =
        IntervalVariant.ParsedBody.raw s ∧
      (∀ (q : String) (deleteOk : DeleteCall → Bool),
        PollVariant.poll { queueUrl := q, autoDelete := false } now deleteOk
            (FetchOutcome.ok (some [m])) =
          Except.ok
            { returned := [[normalizeMessage now m]]
              deletes := []
              warnings := [] }) := by
  intro now m s hbody hne hparse
  refine ⟨?_, ?_, ?_⟩
  · simp [normalizeMessage, jsOrElse, hbody, hne, hparse]
  · simp [IntervalVariant.transformMessage, IntervalVariant.parseBody, hbody, hne,
      hparse]
  · intro q deleteOk
    simp [PollVariant.poll, PollVariant.pollLoop]

/-- C8 witness: the invalid-JSON fallback evaluated on the concrete body
"not json". -/
theorem C8_invalid_json_fallback_witness :
    jsonParse "not json" = none ∧
    (normalizeMessage "t0" sampleMsg2).parsedBody = none ∧
    (IntervalVariant.transformMessage sampleMsg2).parsedBody =
      IntervalVariant.ParsedBody.raw "not json" ∧
    PollVariant.poll { queueUrl := "q", autoDelete := false } "t0" allOk
        (FetchOutcome.ok (some [sampleMsg2])) =
      Except.ok
        { returned := [[normalizeMessage "t0" sampleMsg2]]
          deletes := []
          warnings := [] } := by
  have h := C8_invalid_json_fallback "t0" sampleMsg2 "not json" rfl (by decide) rfl
  exact ⟨rfl, h.1, h.2.1, h.2.2 "q" allOk⟩

/-- C9: a raw message with an absent body is treated as the empty structured
object — both transforms set parsed-body to the empty JSON object, not the
parse-failure fallback — and absent attribute maps become empty maps on the
record in both variants. -/
theorem C9_absent_body :
    ∀ (now : String) (m : RawMessage),
      m.Body = none →
      (normalizeMessage now m).parsedBody = some (Json.obj []) ∧
      (IntervalVariant.transformMessage m).parsedBody =
        IntervalVariant.ParsedBody.json (Json.obj []) ∧
      (m.Attributes = none → (normalizeMessage now m).attributes = [] ∧
        (IntervalVariant.transformMessage m).attributes = []) ∧
      (m.MessageAttributes = none → (normalizeMessage now m).messageAttributes = [] ∧
        (IntervalVariant.transformMessage m).messageAttributes = []) := by
  intro now m hbody
  refine ⟨?_, ?_, ?_, ?_⟩
  · have hproj : (normalizeMessage now m).parsedBody =
        jsonParse (jsOrElse m.Body "\x7b\x7d") := rfl
    rw [hproj, hbody]
    rfl
  · have hproj : (IntervalVariant.transformMessage m).parsedBody =
        IntervalVariant.parseBody m.Body := rfl
    rw [hproj, hbody]
    rfl
  · intro hA
    exact ⟨by simp [normalizeMessage, hA],
      by simp [IntervalVariant.transformMessage, hA]⟩
  · intro hMA
    exact ⟨by simp [normalizeMessage, hMA],
      by simp [IntervalVariant.transformMessage, hMA]⟩

/-- C9 witness: the absent-body treatment evaluated on a concrete message
with no body and no attribute maps. -/
theorem C9_absent_body_witness :
    (normalizeMessage "t0" sampleMsgNoBody).parsedBody = some (Json.obj []) ∧
    (IntervalVariant.transformMessage sampleMsgNoBody).parsedBody =
      IntervalVariant.ParsedBody.json (Json.obj []) ∧
    (normalizeMessage "t0" sampleMsgNoBody).attributes = [] ∧
    (IntervalVariant.transformMessage sampleMsgNoBody).attributes = [] ∧
    (normalizeMessage "t0" sampleMsgNoBody).messageAttributes = [] ∧
    (IntervalVariant.transformMessage sampleMsgNoBody).messageAttributes = [] := by
  have h := C9_absent_body "t0" sampleMsgNoBody rfl
  exact ⟨h.1, h.2.1, (h.2.2.1 rfl).1, (h.2.2.1 rfl).2, (h.2.2.2 rfl).1,
    (h.2.2.2 rfl).2⟩

/-- C10: in the deferred-acknowledgment trigger variant, once the close flag
is set, processing a message changes nothing and produces no emit, no
tracking entry and no delete; a scheduled cycle performs no fetch and has no
effects; and the polling loop starts no cycle at all on any remaining
trace. -/
theorem C10_close_requested :
    ∀ (cfg : TriggerVariant.Config) (now : String) (deleteOk : DeleteCall → Bool)
      (tracker : TriggerVariant.MessageTracker) (m : RawMessage) (isPolling : Bool)
      (fetch : FetchOutcome) (trace : List FetchOutcome),
      tracker.closeRequested = true →
      TriggerVariant.processMessage cfg now deleteOk tracker m =
        (tracker, TriggerVariant.emptyEffects) ∧
      TriggerVariant.pollForMessages cfg now deleteOk isPolling fetch tracker =
        (tracker, TriggerVariant.noCycle) ∧
      TriggerVariant.startPolling cfg now deleteOk tracker trace = (tracker, []) := by
  intro cfg now deleteOk tracker m isPolling fetch trace h
  refine ⟨?_, ?_, ?_⟩
  · simp [TriggerVariant.processMessage, h]
  · simp [TriggerVariant.pollForMessages, h]
  · cases trace with
    | nil => rfl
    | cons f fs => simp [TriggerVariant.startPolling, h]

/-- C10 witness: the post-close behaviour evaluated on a closed tracker with
a concrete message and trace. -/
theorem C10_close_requested_witness :
    TriggerVariant.processMessage cfgDeferred "t0" allOk closedTracker sampleMsg1 =
      (closedTracker, TriggerVariant.emptyEffects) ∧
    TriggerVariant.pollForMessages cfgDeferred "t0" allOk false
        (FetchOutcome.ok (some [sampleMsg1])) closedTracker =
      (closedTracker, TriggerVariant.noCycle) ∧
    TriggerVariant.startPolling cfgDeferred "t0" allOk closedTracker
        [FetchOutcome.ok (some [sampleMsg1]), FetchOutcome.err "boom"] =
      (closedTracker, []) :=
  C10_close_requested cfgDeferred "t0" allOk closedTracker sampleMsg1 false
    (FetchOutcome.ok (some [sampleMsg1]))
    [FetchOutcome.ok (some [sampleMsg1]), FetchOutcome.err "boom"] rfl
